import Mathlib

/-!
Verification development for the system-metric-monitor script (`main.py`).

The script samples network-speed, network-counter and host-resource metrics
and appends them as one timestamped row to a CSV table.  We embed its
functions shallowly:

* Python strings are `List Char`; dynamically typed Python values that can be
  either a string or a number are the inductive `PyVal` (numbers modelled
  as `ℚ`).
* A Python function that can raise becomes `Except PyErr _`; an invocation
  that returns `.error _` aborted before its final write.
* Collaborator results (the speedtest report text, the `psutil` counter
  tuples, the clock) are explicit parameters.
-/

/-- Python exception kinds that can arise in `main.py`. -/
inductive PyErr where
  | indexError
  | valueError
  | keyError
deriving DecidableEq

deriving instance DecidableEq for Except

/-- A dynamically typed Python value as it occurs in the metric dicts:
either a string or a number (`int`/`float`, modelled as `ℚ`). -/
inductive PyVal where
  | str : List Char → PyVal
  | num : ℚ → PyVal
deriving DecidableEq

/-- `true` iff the value is a Python string. -/
def PyVal.isStr : PyVal → Bool
  | .str _ => true
  | .num _ => false

/-- `true` iff the value is a Python number. -/
def PyVal.isNum : PyVal → Bool
  | .str _ => false
  | .num _ => true

/-- Python `s * n` for a string `s` and a non-negative `int` `n`:
string repetition. -/
def pyStrMul (s : List Char) (n : ℕ) : List Char :=
  (List.replicate n s).flatten

/-- Value of a list of decimal digit characters read in base 10. -/
def digitsVal (ds : List Char) : ℕ :=
  ds.foldl (fun a c => a * 10 + (c.toNat - 48)) 0

/-- `true` iff every character is an ASCII decimal digit. -/
def allDigits (ds : List Char) : Bool :=
  ds.all Char.isDigit

/-- Python `float(s)` on an unsigned decimal literal `digits[.digits]`
(`"5"`, `"5."`, `".5"`, `"3.14"`); anything else is a `ValueError`
(`none`).  Exotic `float` syntax (exponents, `inf`/`nan`, underscores,
surrounding whitespace) never arises from this script's data and is
treated as an error. -/
def parseUnsigned (s : List Char) : Option ℚ :=
  match s.span (fun c => c ≠ '.') with
  | (ip, []) =>
      if ip ≠ [] ∧ allDigits ip then some (digitsVal ip) else none
  | (ip, _ :: fp) =>
      if (ip ≠ [] ∨ fp ≠ []) ∧ allDigits ip ∧ allDigits fp then
        some ((digitsVal ip : ℚ) + (digitsVal fp : ℚ) / (10 : ℚ) ^ fp.length)
      else none

/-- Python `float(s)` on an optionally signed decimal literal. -/
def parseDecimal (s : List Char) : Option ℚ :=
  match s with
  | '-' :: rest => (parseUnsigned rest).map Neg.neg
  | '+' :: rest => parseUnsigned rest
  | _ => parseUnsigned s

/-- Python `float(v)` on a dynamic value: numbers convert to themselves,
strings are parsed as decimal literals, raising `ValueError` on failure. -/
def pyFloat (v : PyVal) : Except PyErr ℚ :=
  match v with
  | .num q => .ok q
  | .str s =>
      match parseDecimal s with
      | some q => .ok q
      | none => .error .valueError

/-- Python `str.split()` whitespace set: space, tab, newline, carriage
return, vertical tab, form feed. -/
def pyIsSpace (c : Char) : Bool :=
  c = ' ' || c = '\t' || c = '\n' || c = '\r' || c = '\x0b' || c = '\x0c'

/-- Helper for `splitWords`: accumulates the current word (reversed). -/
def splitWordsAux : List Char → List Char → List (List Char)
  | [], acc => if acc = [] then [] else [acc.reverse]
  | c :: cs, acc =>
      if pyIsSpace c then
        if acc = [] then splitWordsAux cs []
        else acc.reverse :: splitWordsAux cs []
      else splitWordsAux cs (c :: acc)

/-- Python `text.split()`: maximal runs of non-whitespace characters, in
order; never produces empty words.  `main.py` iterates the report file
line by line and splits each line, which yields exactly the
whitespace-separated words of the whole text because the line terminator
`\n` is itself `split()` whitespace. -/
def splitWords (cs : List Char) : List (List Char) :=
  splitWordsAux cs []

/-- Python negative indexing `w[-k]` (for `k ≥ 1` as used at `word[-1]`,
`word[-2]`, `word[-6]`): `none` models the raised `IndexError`. -/
def pyNegIdx (w : List Char) (k : ℕ) : Option Char :=
  if 1 ≤ k ∧ k ≤ w.length then w[w.length - k]? else none

/-- Outcome of classifying one whitespace-separated word of the report
(the body of the `try:` block at `main.py` lines 40-47). -/
inductive TokenAction where
  | metric : List Char → TokenAction
  | scale : ℕ → TokenAction
  | skip : TokenAction
deriving DecidableEq

/-- The `try:` body for one word: collect the word if its last character
is a digit; otherwise, if its second-to-last character is `/`, read the
character six from the end (`M` → scale 1, `G` → scale 1000).  `none`
models an `IndexError` escaping the body. -/
def tryClassify (w : List Char) : Option TokenAction := do
  let c1 ← pyNegIdx w 1
  if c1.isDigit then
    pure (.metric w)
  else do
    let c2 ← pyNegIdx w 2
    if c2 = '/' then do
      let c6 ← pyNegIdx w 6
      if c6 = 'M' then pure (.scale 1)
      else if c6 = 'G' then pure (.scale 1000)
      else pure .skip
    else pure .skip

/-- One loop iteration over a word, with the `except IndexError: pass`
handler: a raised `IndexError` (`tryClassify w = none`) leaves the
state `(metrics, unit_scale_factors)` unchanged. -/
def stepWord (st : List (List Char) × List ℕ) (w : List Char) :
    List (List Char) × List ℕ :=
  match tryClassify w with
  | none => st
  | some .skip => st
  | some (.metric m) => (st.1 ++ [m], st.2)
  | some (.scale k) => (st.1, st.2 ++ [k])

/-- The whole collection loop of `get_speed_metrics`: `metrics` and
`unit_scale_factors` accumulated over every word of the report text. -/
def collectTokens (text : List Char) : List (List Char) × List ℕ :=
  (splitWords text).foldl stepWord ([], [])

/-- The parsed speed sample: the dict
`('distance', 'time', 'download', 'upload')` returned by
`get_speed_metrics`, values in insertion order. -/
structure SpeedSample where
  distance : PyVal
  time : PyVal
  download : PyVal
  upload : PyVal
deriving DecidableEq

/-- Python list indexing `l[i]` for `i ≥ 0`, raising `IndexError` when out
of range. -/
def pyListGet {α : Type} (l : List α) (i : ℕ) : Except PyErr α :=
  match l, i with
  | [], _ => .error .indexError
  | x :: _, 0 => .ok x
  | _ :: xs, n + 1 => pyListGet xs n

/-- Lines 51-57 of `main.py`, after the collection loop:
`metrics[0] = metrics[0][1:]` (strip the leading bracket artifact),
`metrics[2] = metrics[2]*unit_scale_factors[0]`,
`metrics[3] = metrics[3]*unit_scale_factors[1]` (note: `metrics` holds
strings, so `*` is string repetition), then
`dict(zip(('distance','time','download','upload'), metrics))`.
Out-of-range indexing raises an uncaught `IndexError`. -/
def applyScales (ms0 : List (List Char)) (usf : List ℕ) :
    Except PyErr SpeedSample := do
  let m0 ← pyListGet ms0 0
  let ms1 := ms0.set 0 (m0.drop 1)
  let m2 ← pyListGet ms1 2
  let k0 ← pyListGet usf 0
  let ms2 := ms1.set 2 (pyStrMul m2 k0)
  let m3 ← pyListGet ms2 3
  let k1 ← pyListGet usf 1
  let ms3 := ms2.set 3 (pyStrMul m3 k1)
  let d ← pyListGet ms3 0
  let t ← pyListGet ms3 1
  let dl ← pyListGet ms3 2
  let ul ← pyListGet ms3 3
  pure ⟨.str d, .str t, .str dl, .str ul⟩

/-- `get_speed_metrics` of `main.py` as a function of the report text the
external `speedtest-cli` subprocess wrote: tokenize and classify every
word, then strip the distance artifact, apply the collected unit-scale
factors to the download/upload tokens, and return the four-field dict. -/
def get_speed_metrics (text : List Char) : Except PyErr SpeedSample :=
  applyScales (collectTokens text).1 (collectTokens text).2

/-- The eight dict keys of `get_network_metrics`, in source order. -/
def NET_FIELD_NAMES : List String :=
  ["byte_out", "byte_in", "pack_out", "pack_in", "err_in", "err_out",
   "drop_in", "drop_out"]

/-- `get_network_metrics` of `main.py` as a function of the counter tuple
the `psutil.net_io_counters()` collaborator returned:
`dict(zip(names, metrics))`.  Python `zip` truncates to the shorter
argument, so a short tuple silently yields a dict with fewer keys; no
code path of this function raises. -/
def get_network_metrics (counters : List ℕ) :
    Except PyErr (List (String × ℕ)) :=
  .ok (NET_FIELD_NAMES.zip counters)

/-- Round-half-to-even on an exact rational, the tie rule of Python's
`round`.  (Binary floating-point representation effects of `round` on
`float` inputs are outside the model's scope.) -/
def roundHalfEven (x : ℚ) : ℤ :=
  let n := ⌊x⌋
  let f := x - n
  if f < 1 / 2 then n
  else if 1 / 2 < f then n + 1
  else if n % 2 = 0 then n else n + 1

/-- Python `round(x, 3)`: round to 3 decimal places. -/
def round3 (x : ℚ) : ℚ :=
  (roundHalfEven (x * 1000) : ℚ) / 1000

/-- The dict `('cpu_perc', 'avg_load', 'free_memory', 'perc_memory')`
returned by `get_system_metrics`, values in insertion order. -/
structure SystemSample where
  cpu_perc : ℚ
  avg_load : ℚ
  free_memory : ℚ
  perc_memory : ℚ
deriving DecidableEq

/-- `get_system_metrics` of `main.py` as a function of the `psutil`
collaborator results: `cpu_percent(interval=1)` (already a number),
`getloadavg()[0]`, `virtual_memory()[1]` (available bytes) and
`round(virtual_memory()[2]/100, 3)` (percent used, as a fraction).
Tuple indexing out of range raises `IndexError`. -/
def get_system_metrics (cpu_perc : ℚ) (loadavg : List ℚ) (vm : List ℚ) :
    Except PyErr SystemSample := do
  let avg_load ← pyListGet loadavg 0
  let amt_free_memory ← pyListGet vm 1
  let vm2 ← pyListGet vm 2
  let memory_perc := round3 (vm2 / 100)
  pure ⟨cpu_perc, avg_load, amt_free_memory, memory_perc⟩

/-- The module-level `COLUMNS` constant of `main.py`. -/
def COLUMNS : List String :=
  ["Download speed", "Upload speed", "Packages out", "Packages in",
   "Errors in", "Errors out", "Drop in", "Drop out", "CPU perc use",
   "Average load", "Free memory (bytes)", "Percent free memory",
   "Datetime"]

/-- A pandas `DataFrame` (also the persisted CSV content: header row and
data rows).  A cell is `Option ℚ`: `none` models a missing value
(`NaN`); the `Datetime` cell is modelled as a numeric timestamp. -/
structure DF where
  cols : List String
  rows : List (List (Option ℚ))
deriving DecidableEq

/-- Lexicographic order on character lists by code point (the string
order pandas sorts column labels with). -/
def lexLt : List Char → List Char → Bool
  | [], [] => false
  | [], _ :: _ => true
  | _ :: _, [] => false
  | a :: as, b :: bs =>
      if a.toNat < b.toNat then true
      else if b.toNat < a.toNat then false
      else lexLt as bs

/-- Insert a string into an already sorted list (ascending `lexLt`). -/
def insertSorted (s : String) : List String → List String
  | [] => [s]
  | t :: ts =>
      if lexLt t.toList s.toList then t :: insertSorted s ts
      else s :: t :: ts

/-- Sort a list of strings ascending (insertion sort). -/
def sortStrings (l : List String) : List String :=
  l.foldr insertSorted []

/-- Reindex one data row from the old column list to a new one: each new
column takes the value the row had under that label, `none` (`NaN`)
when the label is absent. -/
def reindexRow (oldCols newCols : List String) (r : List (Option ℚ)) :
    List (Option ℚ) :=
  newCols.map (fun c => (List.lookup c (oldCols.zip r)).join)

/-- `df.append(other, ignore_index=True, sort=True)` of `main.py`
line 114 (pandas semantics): when the two frames' columns are already
aligned the rows are concatenated under the same columns; otherwise the
column union is sorted alphabetically and both frames' rows are
reindexed to it, missing cells becoming `NaN`. -/
def dfAppend (a b : DF) : DF :=
  if a.cols = b.cols then ⟨a.cols, a.rows ++ b.rows⟩
  else
    let cols := sortStrings ((a.cols ++ b.cols).dedup)
    ⟨cols, a.rows.map (reindexRow a.cols cols) ++
           b.rows.map (reindexRow b.cols cols)⟩

/-- `df.set_index('Datetime')` followed by
`df.to_csv('metrics.csv', sep=',', index=True, header=True)`
(lines 115-116): the first column labelled `Datetime` becomes the
index, and `to_csv` writes the index as the leading column.  The result
is the persisted CSV content; a missing `Datetime` label would raise
`KeyError`. -/
def dfSetIndexDatetimeToCsv (df : DF) : Except PyErr DF :=
  match df.cols.findIdx? (fun c => c = "Datetime") with
  | none => .error .keyError
  | some i =>
      .ok ⟨"Datetime" :: df.cols.eraseIdx i,
           df.rows.map (fun r => (r[i]?).join :: r.eraseIdx i)⟩

/-- Lines 106-110 of `update_df`: the unflattened metric list
`[speed.values()[-2:], network.values()[-6:], system.values()]` and its
flattening `[float(item) for metric in metrics for item in metric]`.
`float` on the speed entries (strings) can raise `ValueError`; the
network and system entries are numbers. -/
def buildRowVals (speed : SpeedSample) (net : List (String × ℕ))
    (sys : SystemSample) : Except PyErr (List ℚ) := do
  let speedVals := [speed.distance, speed.time, speed.download, speed.upload]
  let sTail := speedVals.drop (speedVals.length - 2)
  let netVals := (net.map Prod.snd).map (fun n => PyVal.num (n : ℚ))
  let nTail := netVals.drop (netVals.length - 6)
  let sysVals := [PyVal.num sys.cpu_perc, PyVal.num sys.avg_load,
                  PyVal.num sys.free_memory, PyVal.num sys.perc_memory]
  (sTail ++ nTail ++ sysVals).mapM pyFloat

/-- `update_df` of `main.py` as a function of the pre-invocation CSV
content `file` and the collaborator inputs (report text, counter tuple,
`psutil` readings, current time `now`).  It reads the table, invokes
the three readers in source order, flattens their values into one row,
appends the timestamp, appends the one-row frame with `sort=True`, sets
the `Datetime` index and returns the CSV content `to_csv` writes.  An
`.error` result is an invocation aborted before the final `to_csv`, so
the persisted file is untouched. -/
def update_df (file : DF) (report : List Char) (counters : List ℕ)
    (cpu_perc : ℚ) (loadavg : List ℚ) (vm : List ℚ) (now : ℚ) :
    Except PyErr DF := do
  let df := file
  let speed ← get_speed_metrics report
  let net ← get_network_metrics counters
  let sys ← get_system_metrics cpu_perc loadavg vm
  let vals ← buildRowVals speed net sys
  let row : List (Option ℚ) := (vals ++ [now]).map some
  let metricsDF : DF := ⟨COLUMNS, [row]⟩
  let df2 := dfAppend df metricsDF
  dfSetIndexDatetimeToCsv df2

/-- The concrete spec scenario report: distance token `[3.14159`, latency
`20.5`, download `123.45 Mbit/s`, upload `6.78 Mbit/s`. -/
def specReportText : List Char :=
  ("Hostname: example  [3.14159 km]\nPing: 20.5 ms\n" ++
   "Download: 123.45 Mbit/s\nUpload: 6.78 Mbit/s").toList

/-- A well-formed report whose download speed is expressed in Gbit/s. -/
def gbitReportText : List Char :=
  ("Hostname: ex [1.2 km]\nPing: 10 ms\n" ++
   "Download: 1.20 Gbit/s\nUpload: 0.5 Mbit/s").toList

/-- A report whose download token is the negative number `-5` (its last
character is a digit, so the collector accepts it). -/
def negReportText : List Char :=
  ("a [1.1 b\nPing: 2 ms\nDownload: -5 Mbit/s\nUpload: 3 Mbit/s").toList

/-- A well-formed Mbit/s report with integer speed values: download `7`,
upload `3`. -/
def rowReportText : List Char :=
  ("Hostname: example  [3.14159 km]\nPing: 20.5 ms\n" ++
   "Download: 7 Mbit/s\nUpload: 3 Mbit/s").toList

/-- The speed sample `rowReportText` parses to. -/
def rowSpeedSample : SpeedSample :=
  ⟨.str ("3.14159".toList), .str ("20.5".toList), .str ("7".toList),
   .str ("3".toList)⟩

/-- A concrete system sample used in row-assembly scenarios. -/
def rowSystemSample : SystemSample :=
  ⟨9, 21 / 2, 11, 83 / 200⟩

/-!  Helper lemmas about the embedded functions. -/

/-- Normal form of the post-loop step on a fully populated token state:
four or more collected metric tokens and two or more scale factors. -/
theorem applyScales_full (m0 m1 m2 m3 : List Char) (rest : List (List Char))
    (k0 k1 : ℕ) (ks : List ℕ) :
    applyScales (m0 :: m1 :: m2 :: m3 :: rest) (k0 :: k1 :: ks) =
      .ok ⟨.str (m0.drop 1), .str m1, .str (pyStrMul m2 k0),
           .str (pyStrMul m3 k1)⟩ := rfl

/-- With fewer than two collected scale factors the post-loop step always
raises an uncaught `IndexError` (at one of the list indexings of lines
52-55). -/
theorem applyScales_short (ms : List (List Char)) (usf : List ℕ)
    (h : usf.length < 2) : applyScales ms usf = .error .indexError := by
  rcases ms with _ | ⟨m0, _ | ⟨m1, _ | ⟨m2, _ | ⟨m3, rest⟩⟩⟩⟩
  · rfl
  · rfl
  · rfl
  · rcases usf with _ | ⟨k0, _ | ⟨k1, ks⟩⟩
    · rfl
    · rfl
    · simp at h
      omega
  · rcases usf with _ | ⟨k0, _ | ⟨k1, ks⟩⟩
    · rfl
    · rfl
    · simp at h
      omega

/-- A successful parse forces at least four metric tokens and two scale
factors, and determines the sample's shape. -/
theorem applyScales_ok_shape (ms : List (List Char)) (usf : List ℕ)
    (s : SpeedSample) (h : applyScales ms usf = .ok s) :
    ∃ m0 m1 m2 m3 rest k0 k1 ks,
      ms = m0 :: m1 :: m2 :: m3 :: rest ∧ usf = k0 :: k1 :: ks ∧
      s = ⟨.str (m0.drop 1), .str m1, .str (pyStrMul m2 k0),
           .str (pyStrMul m3 k1)⟩ := by
  rcases ms with _ | ⟨m0, _ | ⟨m1, _ | ⟨m2, _ | ⟨m3, rest⟩⟩⟩⟩
  · nomatch h
  · nomatch h
  · nomatch h
  · rcases usf with _ | ⟨k0, _ | ⟨k1, ks⟩⟩
    · nomatch h
    · nomatch h
    · nomatch h
  · rcases usf with _ | ⟨k0, _ | ⟨k1, ks⟩⟩
    · nomatch h
    · nomatch h
    · rw [applyScales_full] at h
      injection h with h
      exact ⟨m0, m1, m2, m3, rest, k0, k1, ks, rfl, rfl, h.symm⟩

/-- The empty word raises at its first indexing, `word[-1]`. -/
theorem tryClassify_nil : tryClassify [] = none := rfl

/-- C9: for every word encountered during report tokenization, if the
classification body raises an `IndexError` (as it does e.g. on an empty
word, at `word[-1]`), the `except IndexError: pass` handler catches it,
the word is skipped (the accumulated state is unchanged) and the fold
over the remaining words continues; a per-token indexing failure never
aborts the parse. -/
theorem C9_token_skip (st : List (List Char) × List ℕ) (w : List Char)
    (ws : List (List Char)) (h : tryClassify w = none) :
    stepWord st w = st ∧
    List.foldl stepWord st (w :: ws) = List.foldl stepWord st ws := by
  have h1 : stepWord st w = st := by simp [stepWord, h]
  refine ⟨h1, ?_⟩
  rw [List.foldl_cons, h1]

/-- Witness for C9 at the empty word: `tryClassify [] = none`, and the
fold over `["", "5"]` from the empty start state skips the empty word. -/
theorem C9_witness :
    stepWord (([], []) : List (List Char) × List ℕ) [] = ([], []) ∧
    List.foldl stepWord (([], []) : List (List Char) × List ℕ)
        [[], ['5']] =
      List.foldl stepWord (([], []) : List (List Char) × List ℕ)
        [['5']] :=
  C9_token_skip ([], []) [] [['5']] (by rfl)

/-- C10: for every report text from which fewer than two unit-scale
factors are collected, `get_speed_metrics` fails with an uncaught
`IndexError` (raised at the list indexings of lines 52-55 that strip
the distance artifact and apply the scale factors), and no sample dict
is produced. -/
theorem C10_missing_scale_error (text : List Char)
    (h : (collectTokens text).2.length < 2) :
    get_speed_metrics text = .error .indexError := by
  unfold get_speed_metrics
  exact applyScales_short _ _ h

/-- Witness for C10 at the empty report text: no scale factor is
collected and the parser raises `IndexError`. -/
theorem C10_witness :
    (collectTokens []).2.length < 2 ∧
    get_speed_metrics [] = .error .indexError :=
  ⟨by decide, C10_missing_scale_error [] (by decide)⟩

/-- C6: whenever the speed-report parsing step of an invocation fails,
its error propagates out of `update_df` (the invocation aborts before
the final `to_csv`, which is the only write to the persistent table, so
the table file is left exactly as it was). -/
theorem C6_parser_failure_no_write (file : DF) (report : List Char)
    (counters : List ℕ) (cpu_perc : ℚ) (loadavg vm : List ℚ) (now : ℚ)
    (e : PyErr) (h : get_speed_metrics report = .error e) :
    update_df file report counters cpu_perc loadavg vm now = .error e := by
  unfold update_df
  rw [h]
  rfl

/-- Witness for C6: a malformed (empty) report makes the whole
invocation fail with the parser's `IndexError`; nothing is written. -/
theorem C6_witness :
    get_speed_metrics [] = .error .indexError ∧
    update_df ⟨COLUMNS, []⟩ [] [0, 0, 0, 0, 0, 0, 0, 0] 9 [1] [0, 11, 40]
        99 = .error .indexError :=
  ⟨by rfl,
   C6_parser_failure_no_write ⟨COLUMNS, []⟩ [] [0, 0, 0, 0, 0, 0, 0, 0] 9
     [1] [0, 11, 40] 99 .indexError (by rfl)⟩

/-- C1 (code bug): on a well-formed report whose download speed is in
Gbit/s, the collected scale factor 1000 is applied to the *string*
token by Python `*`, i.e. string repetition, not numeric
multiplication: the download field becomes the token repeated 1000
times, whose later `float()` conversion raises `ValueError` — not the
raw value × 1000 the code's own comment (`scale speeds to Mbit/s`) and
docstring (`download speed (Mbit/s)`) intend.  The Mbit/s half (factor
1) is unaffected: repetition by 1 leaves the token, so its numeric
value is the raw value unchanged. -/
theorem C1_gbit_string_repetition :
    get_speed_metrics gbitReportText =
      .ok ⟨.str ("1.2".toList), .str ("10".toList),
           .str (pyStrMul ("1.20".toList) 1000),
           .str ("0.5".toList)⟩ ∧
    pyFloat (.str (pyStrMul ("1.20".toList) 1000)) = .error .valueError ∧
    pyStrMul ("0.5".toList) 1 = "0.5".toList ∧
    pyFloat (.str ("0.5".toList)) = .ok (1 / 2) := by
  refine ⟨by rfl, by rfl, by rfl, ?_⟩
  show Except.ok ((0 : ℚ) + (5 : ℚ) / (10 : ℚ) ^ 1) = Except.ok (1 / 2)
  norm_num

/-- C4 counterexample: on a report whose parse succeeds with download
token `-5` (Mbit/s), the download field is a Python string, not a
float, and its numeric interpretation is the negative number `-5` —
refuting both the float typing and the non-negativity of the claim. -/
theorem C4_counterexample :
    get_speed_metrics negReportText =
      .ok ⟨.str ("1.1".toList), .str ("2".toList), .str ("-5".toList),
           .str ("3".toList)⟩ ∧
    PyVal.isNum (.str ("-5".toList)) = false ∧
    pyFloat (.str ("-5".toList)) = .ok (-5) ∧ (-5 : ℚ) < 0 := by
  refine ⟨by rfl, by rfl, ?_, by norm_num⟩
  show Except.ok (-(5 : ℚ)) = Except.ok (-5)
  norm_num

/-- C4 (amended): for every report text on which parsing succeeds, all
four fields of the returned sample are Python strings (the collected
tokens, the download/upload ones scale-applied by string repetition);
numeric conversion is deferred to row assembly, and no float typing,
non-negativity or finiteness is established at parse time. -/
theorem C4_fields_are_strings (text : List Char) (s : SpeedSample)
    (h : get_speed_metrics text = .ok s) :
    s.distance.isStr = true ∧ s.time.isStr = true ∧
    s.download.isStr = true ∧ s.upload.isStr = true := by
  unfold get_speed_metrics at h
  obtain ⟨m0, m1, m2, m3, rest, k0, k1, ks, -, -, hs⟩ :=
    applyScales_ok_shape _ _ _ h
  subst hs
  exact ⟨rfl, rfl, rfl, rfl⟩

/-- Witness for C4 at the concrete spec scenario report. -/
theorem C4_witness :
    (⟨.str ("3.14159".toList), .str ("20.5".toList),
      .str ("123.45".toList), .str ("6.78".toList)⟩ :
        SpeedSample).distance.isStr = true ∧
    (⟨.str ("3.14159".toList), .str ("20.5".toList),
      .str ("123.45".toList), .str ("6.78".toList)⟩ :
        SpeedSample).time.isStr = true ∧
    (⟨.str ("3.14159".toList), .str ("20.5".toList),
      .str ("123.45".toList), .str ("6.78".toList)⟩ :
        SpeedSample).download.isStr = true ∧
    (⟨.str ("3.14159".toList), .str ("20.5".toList),
      .str ("123.45".toList), .str ("6.78".toList)⟩ :
        SpeedSample).upload.isStr = true :=
  C4_fields_are_strings specReportText _ (by rfl)

/-- C7: for every report on which parsing succeeds whose first collected
numeric token starts with a non-digit artifact character (such as the
`[` of `[3.14159`), the distance field is that token with exactly its
one leading character stripped, so its numeric value is that of the
stripped token. -/
theorem C7_distance_strip (text : List Char) (s : SpeedSample) (c : Char)
    (cs : List Char) (rest : List (List Char))
    (h : get_speed_metrics text = .ok s)
    (hh : (collectTokens text).1 = (c :: cs) :: rest)
    (_hc : c.isDigit = false) :
    s.distance = .str cs := by
  unfold get_speed_metrics at h
  obtain ⟨m0, m1, m2, m3, r, k0, k1, ks, hms, -, hs⟩ :=
    applyScales_ok_shape _ _ _ h
  rw [hms] at hh
  have h0 : m0 = c :: cs := (List.cons.injEq _ _ _ _ ▸ hh).1
  subst hs
  simp [h0]

/-- Witness for C7 at the concrete spec scenario: the token `[3.14159`
yields distance string `3.14159`, whose numeric value is `3.14159`. -/
theorem C7_witness :
    (⟨.str ("3.14159".toList), .str ("20.5".toList),
      .str ("123.45".toList), .str ("6.78".toList)⟩ :
        SpeedSample).distance = .str ("3.14159".toList) ∧
    pyFloat (.str ("3.14159".toList)) = .ok (314159 / 100000) :=
  ⟨C7_distance_strip specReportText _ '[' ("3.14159".toList)
      [("20.5".toList), ("123.45".toList), ("6.78".toList)]
      (by rfl) (by rfl) (by rfl),
   by
    show Except.ok ((3 : ℚ) + (14159 : ℚ) / (10 : ℚ) ^ 5) =
      Except.ok (314159 / 100000)
    norm_num⟩

/-- Round-half-to-even maps `[0, 1000]` into `[0, 1000]`. -/
theorem roundHalfEven_bounds (x : ℚ) (h0 : 0 ≤ x) (h1 : x ≤ 1000) :
    0 ≤ roundHalfEven x ∧ roundHalfEven x ≤ 1000 := by
  unfold roundHalfEven
  dsimp only
  have hfl : (⌊x⌋ : ℚ) ≤ x := Int.floor_le x
  have hfl2 : x < ⌊x⌋ + 1 := Int.lt_floor_add_one x
  have hn0 : 0 ≤ ⌊x⌋ := Int.floor_nonneg.mpr h0
  have hn1000 : ⌊x⌋ ≤ 1000 := by
    have h2 : (⌊x⌋ : ℚ) ≤ 1000 := le_trans hfl h1
    exact_mod_cast h2
  split_ifs with hf1 hf2 hpar
  · exact ⟨hn0, hn1000⟩
  · constructor
    · omega
    · have h3 : (⌊x⌋ : ℚ) + 1 / 2 < x := by linarith
      have h4 : (⌊x⌋ : ℚ) < 1000 := by linarith
      have h5 : ⌊x⌋ < 1000 := by exact_mod_cast h4
      omega
  · exact ⟨hn0, hn1000⟩
  · constructor
    · omega
    · have heq : x - ⌊x⌋ = 1 / 2 := le_antisymm (not_lt.mp hf2) (not_lt.mp hf1)
      have h4 : (⌊x⌋ : ℚ) < 1000 := by linarith
      have h5 : ⌊x⌋ < 1000 := by exact_mod_cast h4
      omega

/-- Rounding to three decimals maps `[0, 1]` into `[0, 1]`. -/
theorem round3_unit_bounds (q : ℚ) (h0 : 0 ≤ q) (h1 : q ≤ 1) :
    0 ≤ round3 q ∧ round3 q ≤ 1 := by
  unfold round3
  obtain ⟨ha, hb⟩ := roundHalfEven_bounds (q * 1000) (by linarith) (by linarith)
  constructor
  · have hc : (0 : ℚ) ≤ (roundHalfEven (q * 1000) : ℚ) := by exact_mod_cast ha
    exact div_nonneg hc (by norm_num)
  · rw [div_le_one (by norm_num : (0 : ℚ) < 1000)]
    exact_mod_cast hb

/-- C8: for every reported percent-used value in `[0, 100]`, the sample's
`perc_memory` field — the percent divided by 100 and rounded to 3
decimal places — lies in the closed interval `[0, 1]`. -/
theorem C8_memory_fraction_bounds (cpu_perc l0 : ℚ) (ls : List ℚ)
    (v0 v1 p : ℚ) (vr : List ℚ) (h0 : 0 ≤ p) (h1 : p ≤ 100) :
    get_system_metrics cpu_perc (l0 :: ls) (v0 :: v1 :: p :: vr) =
      .ok ⟨cpu_perc, l0, v1, round3 (p / 100)⟩ ∧
    0 ≤ round3 (p / 100) ∧ round3 (p / 100) ≤ 1 :=
  ⟨rfl, round3_unit_bounds (p / 100) (div_nonneg h0 (by norm_num))
    (by linarith)⟩

/-- Witness for C8 at percent-used `41.5`. -/
theorem C8_witness :
    ((0 : ℚ) ≤ 83 / 2 ∧ (83 / 2 : ℚ) ≤ 100) ∧
    get_system_metrics 9 [21 / 2] [0, 11, 83 / 2] =
      .ok ⟨9, 21 / 2, 11, round3 (83 / 2 / 100)⟩ ∧
    0 ≤ round3 (83 / 2 / 100) ∧ round3 (83 / 2 / 100) ≤ 1 :=
  ⟨⟨by norm_num, by norm_num⟩,
   C8_memory_fraction_bounds 9 (21 / 2) [] 0 11 (83 / 2) []
     (by norm_num) (by norm_num)⟩

/-- C5 counterexample: handed a 3-element counter tuple, the
network-counter reader does not fail at all — `dict(zip(...))`
truncates, yielding a 3-field dict — so the claimed SchemaMismatch
failure does not occur. -/
theorem C5_counterexample :
    get_network_metrics [0, 0, 0] =
      .ok [("byte_out", 0), ("byte_in", 0), ("pack_out", 0)] ∧
    (get_network_metrics [0, 0, 0]).isOk = true :=
  ⟨rfl, rfl⟩

/-- C5 (amended): given an ordered tuple with fewer than 8 elements the
reader succeeds, returning one positionally matched field per supplied
element (`zip` truncation); given an 8-tuple of all zeros it produces a
sample with all eight named fields equal to zero. -/
theorem C5_truncation_and_zeros (counters : List ℕ)
    (h : counters.length < 8) :
    (∃ d, get_network_metrics counters = .ok d ∧
       d.length = counters.length ∧ d.map Prod.snd = counters) ∧
    get_network_metrics (List.replicate 8 0) =
      .ok (NET_FIELD_NAMES.map (fun nm => (nm, 0))) := by
  have h8 : NET_FIELD_NAMES.length = 8 := rfl
  constructor
  · refine ⟨NET_FIELD_NAMES.zip counters, rfl, ?_, ?_⟩
    · rw [List.length_zip, h8]
      omega
    · exact List.map_snd_zip _ _ (by omega)
  · rfl

/-- Witness for C5 at the 3-element all-zero tuple. -/
theorem C5_witness :
    (∃ d, get_network_metrics [0, 0, 0] = .ok d ∧
       d.length = ([0, 0, 0] : List ℕ).length ∧
       d.map Prod.snd = [0, 0, 0]) ∧
    get_network_metrics (List.replicate 8 0) =
      .ok (NET_FIELD_NAMES.map (fun nm => (nm, 0))) :=
  C5_truncation_and_zeros [0, 0, 0] (by decide)

/-- `float()` on a number is the identity. -/
theorem pyFloat_num (q : ℚ) : pyFloat (.num q) = .ok q := rfl

/-- Bind on a successful `Except` just applies the continuation. -/
theorem exceptBind_ok {α β : Type} (a : α) (f : α → Except PyErr β) :
    (Except.ok a >>= f) = f a := rfl

/-- The flattened metric row on a full 8-counter tuple: the speed slice
`[-2:]` keeps download and upload, the network slice `[-6:]` drops the
two byte counters and keeps packets, errors and drops, and the whole
system sample follows. -/
theorem buildRowVals_full (speed : SpeedSample) (dl ul : ℚ)
    (h1 : pyFloat speed.download = .ok dl)
    (h2 : pyFloat speed.upload = .ok ul)
    (b0 b1 p0 p1 ei eo di dro : ℕ) (sys : SystemSample) :
    buildRowVals speed
        (NET_FIELD_NAMES.zip [b0, b1, p0, p1, ei, eo, di, dro]) sys =
      .ok [dl, ul, (p0 : ℚ), (p1 : ℚ), (ei : ℚ), (eo : ℚ), (di : ℚ),
           (dro : ℚ), sys.cpu_perc, sys.avg_load, sys.free_memory,
           sys.perc_memory] := by
  simp [buildRowVals, NET_FIELD_NAMES, List.mapM_cons, List.mapM_nil,
        List.mapM.loop, h1, h2, pyFloat_num, exceptBind_ok]

/-- The persisted layout of a successful `update_df` invocation on a
table whose columns are exactly `COLUMNS`: the appended frame is
column-aligned, `Datetime` becomes the index, and `to_csv` writes it as
the leading column followed by the twelve metric columns; each prior
row is re-written with its `Datetime` cell moved to the front, and the
new row's cells follow the metric order with the timestamp first. -/
theorem update_df_layout (rows : List (List (Option ℚ)))
    (report : List Char) (s : SpeedSample) (dl ul : ℚ)
    (b0 b1 p0 p1 ei eo di dro : ℕ) (cpu l0 : ℚ) (ls : List ℚ)
    (v0 v1 p : ℚ) (vr : List ℚ) (now : ℚ)
    (hs : get_speed_metrics report = .ok s)
    (h1 : pyFloat s.download = .ok dl)
    (h2 : pyFloat s.upload = .ok ul) :
    update_df ⟨COLUMNS, rows⟩ report [b0, b1, p0, p1, ei, eo, di, dro]
        cpu (l0 :: ls) (v0 :: v1 :: p :: vr) now =
      .ok ⟨"Datetime" :: COLUMNS.eraseIdx 12,
           rows.map (fun r => (r[12]?).join :: r.eraseIdx 12) ++
             [[some now, some dl, some ul, some (p0 : ℚ), some (p1 : ℚ),
               some (ei : ℚ), some (eo : ℚ), some (di : ℚ),
               some (dro : ℚ), some cpu, some l0, some v1,
               some (round3 (p / 100))]]⟩ := by
  have hsys : get_system_metrics cpu (l0 :: ls) (v0 :: v1 :: p :: vr) =
      .ok ⟨cpu, l0, v1, round3 (p / 100)⟩ := rfl
  have hidx : COLUMNS.findIdx? (fun c => c = "Datetime") = some 12 := rfl
  unfold update_df
  rw [hs]
  simp only [exceptBind_ok, get_network_metrics, hsys,
             buildRowVals_full s dl ul h1 h2 b0 b1 p0 p1 ei eo di dro]
  simp [dfAppend, dfSetIndexDatetimeToCsv, hidx, List.map_append]

/-- C2 counterexample: at a concrete full counter tuple
`(10, 20, 30, 40, 5, 6, 7, 8)` the assembled row's network-derived
portion is the six values `30, 40, 5, 6, 7, 8` — the packet counters 30
and 40 are persisted — not the four error/drop counters alone. -/
theorem C2_counterexample :
    buildRowVals rowSpeedSample
        (NET_FIELD_NAMES.zip [10, 20, 30, 40, 5, 6, 7, 8])
        rowSystemSample =
      .ok [7, 3, 30, 40, 5, 6, 7, 8, 9, 21 / 2, 11, 83 / 200] ∧
    ([7, 3, 30, 40, 5, 6, 7, 8, 9, 21 / 2, 11, 83 / 200] : List ℚ) ≠
      [7, 3, 5, 6, 7, 8, 9, 21 / 2, 11, 83 / 200] := by
  constructor
  · have hb := buildRowVals_full rowSpeedSample 7 3 rfl rfl
      10 20 30 40 5 6 7 8 rowSystemSample
    simpa [rowSystemSample] using hb
  · intro h
    simpa using congrArg List.length h

/-- C2 (amended): for every persisted row, the network-derived portion
consists of exactly the six counters packets-out, packets-in,
errors-in, errors-out, drops-in, drops-out (positions 3-8 of the row);
the two byte totals are sampled but not persisted. -/
theorem C2_network_portion_six_fields (speed : SpeedSample) (dl ul : ℚ)
    (h1 : pyFloat speed.download = .ok dl)
    (h2 : pyFloat speed.upload = .ok ul)
    (b0 b1 p0 p1 ei eo di dro : ℕ) (sys : SystemSample) :
    buildRowVals speed
        (NET_FIELD_NAMES.zip [b0, b1, p0, p1, ei, eo, di, dro]) sys =
      .ok ([dl, ul] ++
           [(p0 : ℚ), (p1 : ℚ), (ei : ℚ), (eo : ℚ), (di : ℚ), (dro : ℚ)] ++
           [sys.cpu_perc, sys.avg_load, sys.free_memory,
            sys.perc_memory]) := by
  simpa using buildRowVals_full speed dl ul h1 h2 b0 b1 p0 p1 ei eo di dro
    sys

/-- Witness for C2 at a concrete tuple with byte counters 100, 200 and
packet counters 31, 41. -/
theorem C2_witness :
    buildRowVals rowSpeedSample
        (NET_FIELD_NAMES.zip [100, 200, 31, 41, 5, 6, 7, 8])
        rowSystemSample =
      .ok ([7, 3] ++ [(31 : ℚ), 41, 5, 6, 7, 8] ++
           [9, 21 / 2, 11, 83 / 200]) :=
  C2_network_portion_six_fields rowSpeedSample 7 3 rfl rfl
    100 200 31 41 5 6 7 8 rowSystemSample

/-- C3 counterexample: on a table whose stored header is exactly the
in-memory schema order, a successful invocation persists the columns
with `Datetime` first (it is the index `to_csv` writes as the leading
column) — not in the claimed order that ends with `Datetime`. -/
theorem C3_counterexample :
    update_df ⟨COLUMNS, []⟩ rowReportText [10, 20, 30, 40, 5, 6, 7, 8] 9
        [21 / 2] [0, 11, 83 / 2] 99 =
      .ok ⟨["Datetime", "Download speed", "Upload speed", "Packages out",
            "Packages in", "Errors in", "Errors out", "Drop in",
            "Drop out", "CPU perc use", "Average load",
            "Free memory (bytes)", "Percent free memory"],
           [[some 99, some 7, some 3, some 30, some 40, some 5, some 6,
             some 7, some 8, some 9, some (21 / 2), some 11,
             some (round3 (83 / 2 / 100))]]⟩ ∧
    ["Datetime", "Download speed", "Upload speed", "Packages out",
     "Packages in", "Errors in", "Errors out", "Drop in", "Drop out",
     "CPU perc use", "Average load", "Free memory (bytes)",
     "Percent free memory"] ≠ COLUMNS := by
  constructor
  · have h := update_df_layout [] rowReportText rowSpeedSample 7 3
      10 20 30 40 5 6 7 8 9 (21 / 2) [] 0 11 (83 / 2) [] 99 rfl rfl rfl
    simpa [COLUMNS] using h
  · decide

/-- C3 (amended): on a prior table whose columns are exactly the
in-memory schema order, a successful invocation appends exactly one row
and persists the thirteen schema columns with `Datetime` written first
(as the index), followed by the other twelve in schema order; the new
row's values align with those columns (timestamp under `Datetime`,
download under `Download speed`, and so on). -/
theorem C3_persisted_layout (rows : List (List (Option ℚ)))
    (report : List Char) (s : SpeedSample) (dl ul : ℚ)
    (b0 b1 p0 p1 ei eo di dro : ℕ) (cpu l0 : ℚ) (ls : List ℚ)
    (v0 v1 p : ℚ) (vr : List ℚ) (now : ℚ)
    (hs : get_speed_metrics report = .ok s)
    (h1 : pyFloat s.download = .ok dl)
    (h2 : pyFloat s.upload = .ok ul) :
    update_df ⟨COLUMNS, rows⟩ report [b0, b1, p0, p1, ei, eo, di, dro]
        cpu (l0 :: ls) (v0 :: v1 :: p :: vr) now =
      .ok ⟨["Datetime", "Download speed", "Upload speed", "Packages out",
            "Packages in", "Errors in", "Errors out", "Drop in",
            "Drop out", "CPU perc use", "Average load",
            "Free memory (bytes)", "Percent free memory"],
           rows.map (fun r => (r[12]?).join :: r.eraseIdx 12) ++
             [[some now, some dl, some ul, some (p0 : ℚ), some (p1 : ℚ),
               some (ei : ℚ), some (eo : ℚ), some (di : ℚ),
               some (dro : ℚ), some cpu, some l0, some v1,
               some (round3 (p / 100))]]⟩ :=
  update_df_layout rows report s dl ul b0 b1 p0 p1 ei eo di dro cpu l0 ls
    v0 v1 p vr now hs h1 h2

/-- Witness for C3 on a table already holding one row. -/
theorem C3_witness :
    update_df ⟨COLUMNS, [List.replicate 13 (some (5 : ℚ))]⟩ rowReportText
        [1, 2, 3, 4, 50, 60, 70, 80] 2 [4] [0, 6, 50] 123 =
      .ok ⟨["Datetime", "Download speed", "Upload speed", "Packages out",
            "Packages in", "Errors in", "Errors out", "Drop in",
            "Drop out", "CPU perc use", "Average load",
            "Free memory (bytes)", "Percent free memory"],
           [List.replicate 13 (some (5 : ℚ))].map
               (fun r => (r[12]?).join :: r.eraseIdx 12) ++
             [[some 123, some 7, some 3, some (3 : ℚ), some (4 : ℚ),
               some (50 : ℚ), some (60 : ℚ), some (70 : ℚ),
               some (80 : ℚ), some 2, some 4, some 6,
               some (round3 (50 / 100))]]⟩ :=
  C3_persisted_layout [List.replicate 13 (some (5 : ℚ))] rowReportText
    rowSpeedSample 7 3 1 2 3 4 50 60 70 80 2 4 [] 0 6 50 [] 123
    rfl rfl rfl
